import Mathlib

/-!
Shallow embedding of the core of the Finance-Research-Bee repository:
the derived-metrics calculator (`calculator.ts`), the indicator
normalizer and quarter-header parser (MoneyControl scraper), the
Screener fiscal-quarter converter, and the fallback orchestrator
(`scrapingOrchestrator.ts`).  JavaScript numbers are modelled as
rationals (the scrapers only ever store finite parsed numbers or
strings), JS `undefined`/`null` as `Option`, and raw indicator maps as
association lists keyed by indicator name.
-/

set_option allowUnsafeReducibility true

attribute [semireducible] Rat.add Rat.sub Rat.mul Rat.inv

namespace FRB

/-- A raw indicator value as stored by the scrapers: a finite number or
a string (placeholders such as "--" are stored as strings). -/
inductive RawValue where
  | num (q : ℚ)
  | str (s : String)
deriving DecidableEq, Repr

/-- A raw indicator map (`RawFinancialData` in calculator.ts): a record
keyed by indicator name. -/
def RawFinancialData := List (String × RawValue)

instance : DecidableEq RawFinancialData := by
  unfold RawFinancialData; infer_instance

instance : Repr RawFinancialData := by
  unfold RawFinancialData; infer_instance

/-- Property access `rawData[key]` on the indicator record. -/
def jsGet (m : RawFinancialData) (k : String) : Option RawValue :=
  (m.find? (fun p => p.1 == k)).map (fun p => p.2)

/-- Model of `replace(/,/g, "")`: drop every comma. -/
def jsStripCommas (s : String) : String :=
  String.mk (s.toList.filter (fun c => c ≠ Char.ofNat 44))

/-- Helper for `jsSplitOnSpace`: split a character list at each space. -/
def splitOnSpaceAux : List Char → List Char → List String
  | [], acc => [String.mk acc.reverse]
  | c :: rest, acc =>
      if c = Char.ofNat 32 then
        String.mk acc.reverse :: splitOnSpaceAux rest []
      else splitOnSpaceAux rest (c :: acc)

/-- Model of JS `split(" ")`: split at every single space, keeping empty
pieces. -/
def jsSplitOnSpace (s : String) : List String :=
  splitOnSpaceAux s.toList []

/-- Model of JS `parseFloat`: longest decimal prefix after optional
leading whitespace and sign; `none` models NaN. -/
def parseFloatJs (s : String) : Option ℚ :=
  let cs := s.toList.dropWhile Char.isWhitespace
  let sign : ℚ := if cs.head? = some (Char.ofNat 45) then -1 else 1
  let cs := if cs.head? = some (Char.ofNat 45) ∨ cs.head? = some (Char.ofNat 43)
            then cs.tail else cs
  let intPart := cs.takeWhile Char.isDigit
  let rest := cs.dropWhile Char.isDigit
  let fracPart := if rest.head? = some (Char.ofNat 46)
                  then rest.tail.takeWhile Char.isDigit else []
  if intPart = [] ∧ fracPart = [] then none
  else
    let iv : ℚ := intPart.foldl (fun acc c => acc * 10 + (c.toNat - 48 : ℕ)) 0
    let fv : ℚ := fracPart.foldl (fun acc c => acc * 10 + (c.toNat - 48 : ℕ)) 0
    some (sign * (iv + fv / (10 : ℚ) ^ fracPart.length))

/-- calculator.ts `toNumber`: convert a raw value to a number, mapping
`undefined`/`null`/"--"/"NA"/"" and unparseable strings to `none`. -/
def toNumber (value : Option RawValue) : Option ℚ :=
  match value with
  | none => none
  | some (.str s) =>
      if s = "--" ∨ s = "NA" ∨ s = "" then none
      else parseFloatJs (jsStripCommas s)
  | some (.num n) => some n

/-- Severity of a validation issue. -/
inductive Severity where
  | warning
  | error
deriving DecidableEq, Repr

/-- calculator.ts `ValidationIssue`. -/
structure ValidationIssue where
  metric : String
  issue : String
  severity : Severity
  expected : Option ℚ := none
  actual : Option ℚ := none
deriving DecidableEq, Repr

/-- calculator.ts `CalculatedMetrics`: the fixed record of optional
derived metrics. -/
structure CalculatedMetrics where
  Revenue : Option ℚ := none
  Contribution : Option ℚ := none
  opEBITDA : Option ℚ := none
  opEBITDApct : Option ℚ := none
  opEBIT : Option ℚ := none
  opEBITpct : Option ℚ := none
  opPBT : Option ℚ := none
  PBT : Option ℚ := none
deriving DecidableEq, Repr

/-- The ordered list of keys probed by the calculator's Revenue
extraction loop. -/
def revenueKeys : List String :=
  ["Net Sales / Income from Operations", "Revenue", "Net Sales", "Sales",
   "Income", "Total Income From Operations"]

/-- The Revenue extraction loop of calculator.ts: the first key whose
value converts to an available number. -/
def calcRevenue (rawData : RawFinancialData) : Option ℚ :=
  revenueKeys.findSome? (fun key => toNumber (jsGet rawData key))

/-- The "Calculate Contribution" block of `calculateDerivedMetrics`:
`Contribution = TotalIncome - purchase - stock`, where the optional
components default to 0; an error issue when Total Income is missing. -/
def contributionStep (totalIncome purchaseTraded stockChange : Option ℚ) :
    Option ℚ × List ValidationIssue :=
  match totalIncome with
  | some ti => (some (ti - purchaseTraded.getD 0 - stockChange.getD 0), [])
  | none =>
      (none,
       [{ metric := "Contribution",
          issue := "Total Income From Operations is missing",
          severity := .error }])

/-- The "Calculate Op. EBITDA" block: strict formula
`Contribution - EmployeesCost - OtherExpenses` when all three are
available, else the directly-reported raw fallback
(`rawData["Op. EBITDA"] ?? rawData["Operating Profit"]`), else an
error issue. -/
def opEBITDAStep (contribution employeeCost otherExpenses rawFallback : Option ℚ) :
    Option ℚ × List ValidationIssue :=
  match contribution, employeeCost, otherExpenses with
  | some c, some e, some o => (some (c - e - o), [])
  | _, _, _ =>
      match rawFallback with
      | some v => (some v, [])
      | none =>
          (none,
           [{ metric := "Op. EBITDA",
              issue := "Missing required fields: Employees Cost, Other Expenses (and no direct Op. EBITDA found)",
              severity := .error }])

/-- A percentage assignment block of `calculateDerivedMetrics`: when the
base metric and Revenue are available and Revenue is non-zero, assign
`(base / Revenue) * 100`; otherwise keep the current field value. -/
def pctBlock (base revenue current : Option ℚ) : Option ℚ :=
  match base, revenue with
  | some b, some r => if r ≠ 0 then some (b / r * 100) else current
  | _, _ => current

/-- The "Calculate Op. EBIT" block: `Op. EBITDA - Depreciation`, with a
warning issue when either operand is missing. -/
def opEBITStep (opEBITDA depreciation : Option ℚ) :
    Option ℚ × List ValidationIssue :=
  match opEBITDA, depreciation with
  | some e, some d => (some (e - d), [])
  | _, _ =>
      (none,
       [{ metric := "Op. EBIT", issue := "Missing Op. EBITDA or Depreciation",
          severity := .warning }])

/-- The "Calculate Op. PBT" block: `Op. EBIT - Interest`, with a warning
issue when either operand is missing. -/
def opPBTStep (opEBIT interest : Option ℚ) :
    Option ℚ × List ValidationIssue :=
  match opEBIT, interest with
  | some e, some i => (some (e - i), [])
  | _, _ =>
      (none,
       [{ metric := "Op. PBT", issue := "Missing Op. EBIT or Interest",
          severity := .warning }])

/-- The "Calculate PBT" block: `Op. PBT + Other Income` when both are
available, else the raw fallback
(`rawData["P/L Before Tax"] ?? rawData["Profit before tax"]`), else an
error issue. -/
def pbtStep (opPBT otherIncome rawFallback : Option ℚ) :
    Option ℚ × List ValidationIssue :=
  match opPBT, otherIncome with
  | some p, some oi => (some (p + oi), [])
  | _, _ =>
      match rawFallback with
      | some v => (some v, [])
      | none =>
          (none,
           [{ metric := "PBT",
              issue := "Missing Op. PBT or Other Income (and no direct PBT found)",
              severity := .error }])

/-- The "Validate PBT against raw data" block: a warning issue when
both the computed PBT and the raw pre-tax figure are available and
differ by more than the tolerance 1. -/
def pbtValidationStep (pbt pbtRaw : Option ℚ) : List ValidationIssue :=
  match pbt, pbtRaw with
  | some p, some pr =>
      if |p - pr| > 1 then
        [{ metric := "PBT",
           issue := "Calculated PBT differs from MoneyControl value",
           severity := .warning, expected := some pr, actual := some p }]
      else []
  | _, _ => []

/-- calculator.ts `calculateDerivedMetrics`, composed from the blocks
above in source order.  Each `calculated.<field>` assignment becomes a
binding; the two percentage blocks that in the source run before
`calculated.Revenue` is assigned read the not-yet-assigned field as
`none`, and the final two percentage blocks re-run the assignment with
the extracted Revenue, keeping the earlier value when skipped. -/
def calculateDerivedMetrics (rawData : RawFinancialData) :
    CalculatedMetrics × List ValidationIssue :=
  -- Extract raw values
  let totalIncome := toNumber (jsGet rawData "Total Income From Operations")
  let purchaseTraded := toNumber (jsGet rawData "Purchase of Traded Goods")
  let stockChange := toNumber (jsGet rawData "Increase / Decrease in Stocks")
  let employeeCost := toNumber (jsGet rawData "Employees Cost")
  let depreciation := toNumber (jsGet rawData "Depreciation")
  let otherExpenses := toNumber (jsGet rawData "Other Expenses")
  let otherIncome := toNumber (jsGet rawData "Other Income")
  let interest := toNumber (jsGet rawData "Interest")
  let pbtRaw := toNumber (jsGet rawData "P/L Before Tax")
  -- Calculate Contribution
  let step1 := contributionStep totalIncome purchaseTraded stockChange
  -- Calculate Op. EBITDA
  let step2 := opEBITDAStep step1.1 employeeCost otherExpenses
      ((toNumber (jsGet rawData "Op. EBITDA")).or
        (toNumber (jsGet rawData "Operating Profit")))
  -- Calculate Op. EBITDA% (first occurrence; Revenue not yet assigned)
  let opEBITDApctA := pctBlock step2.1 none none
  -- Calculate Op. EBIT
  let step3 := opEBITStep step2.1 depreciation
  -- Calculate Op. EBIT% (first occurrence; Revenue not yet assigned)
  let opEBITpctA := pctBlock step3.1 none none
  -- Calculate Op. PBT
  let step4 := opPBTStep step3.1 interest
  -- Calculate PBT
  let step5 := pbtStep step4.1 otherIncome
      ((toNumber (jsGet rawData "P/L Before Tax")).or
        (toNumber (jsGet rawData "Profit before tax")))
  -- Extract Revenue: first available value among the ordered key list
  let revenue := calcRevenue rawData
  -- Calculate Op. EBITDA% = (Op. EBITDA / Revenue) x 100 (second occurrence)
  let opEBITDApct := pctBlock step2.1 revenue opEBITDApctA
  -- Calculate Op. EBIT% = (Op. EBIT / Revenue) x 100 (second occurrence)
  let opEBITpct := pctBlock step3.1 revenue opEBITpctA
  -- Validate PBT against raw data (tolerance: 1 Cr)
  let issuesV := pbtValidationStep step5.1 pbtRaw
  ({ Revenue := revenue, Contribution := step1.1,
     opEBITDA := step2.1, opEBITDApct := opEBITDApct,
     opEBIT := step3.1, opEBITpct := opEBITpct,
     opPBT := step4.1, PBT := step5.1 },
   step1.2 ++ step2.2 ++ step3.2 ++ step4.2 ++ step5.2 ++ issuesV)

/-- Model of JS `String.prototype.toLowerCase` (the labels involved are
ASCII). -/
def jsToLowerCase (s : String) : String :=
  String.mk (s.toList.map Char.toLower)

/-- Model of JS `String.prototype.trim`: strip leading and trailing
whitespace. -/
def jsTrim (s : String) : String :=
  String.mk
    (((s.toList.dropWhile Char.isWhitespace).reverse.dropWhile
        Char.isWhitespace).reverse)

/-- The fixed synonym table of `normalizeIndicatorName` in the
MoneyControl scraper: lower-cased source labels to canonical indicator
names, covering the IT/manufacturing and the banking/financial-services
families. -/
def indicatorMapping : List (String × String) :=
  [ -- IT/Manufacturing metrics
   ("net sales/income from operations", "Net Sales / Income from Operations"),
   ("net sales / income from operations", "Net Sales / Income from Operations"),
   ("revenue from operations", "Net Sales / Income from Operations"),
   ("total income from operations", "Total Income From Operations"),
   ("other operating income", "Other Operating Income"),
   ("employees cost", "Employees Cost"),
   ("employee benefit expenses", "Employees Cost"),
   ("depreciation", "Depreciation"),
   ("depreciation and amortisation expenses", "Depreciation"),
   ("other expenses", "Other Expenses"),
   ("other income", "Other Income"),
   ("interest", "Interest"),
   ("finance costs", "Interest"),
   ("p/l before other inc., int., excpt. items & tax",
    "P/L Before Other Inc., Int., Excpt. Items & Tax"),
   ("p/l before int., excpt. items & tax", "P/L Before Int., Excpt. Items & Tax"),
   ("p/l before exceptional items & tax", "P/L Before Exceptional Items & Tax"),
   ("exceptional items", "Exceptional Items"),
   ("p/l before tax", "P/L Before Tax"),
   ("profit before tax", "P/L Before Tax"),
   ("tax", "Tax"),
   ("tax expenses", "Tax"),
   ("p/l after tax from ordinary activities", "P/L After Tax from Ordinary Activities"),
   ("profit after tax", "P/L After Tax from Ordinary Activities"),
   ("net profit/(loss) for the period", "Net Profit / (Loss) for the Period"),
   ("net profit / (loss) for the period", "Net Profit / (Loss) for the Period"),
   ("net profit", "Net Profit / (Loss) for the Period"),
   ("minority interest", "Minority Interest"),
   ("net p/l after m.i & associates", "Net P/L After MI & Associates"),
   ("basic eps", "Basic EPS"),
   ("diluted eps", "Diluted EPS"),
   ("purchase of traded goods", "Purchase of Traded Goods"),
   ("increase/decrease in stocks", "Increase / Decrease in Stocks"),
   ("consumption of raw materials", "Consumption of Raw Materials"),
   ("power & fuel", "Power & Fuel"),
   ("excise duty", "Excise Duty"),
   ("admin. and selling expenses", "Admin. And Selling Expenses"),
   ("r & d expenses", "R & D Expenses"),
   ("provisions and contingencies", "Provisions And Contingencies"),
   ("exp. capitalised", "Exp. Capitalised"),
   -- Banking & Financial Services specific metrics
   ("net interest income", "Net Interest Income"),
   ("interest income", "Interest Income"),
   ("interest earned", "Interest Income"),
   ("interest expended", "Interest Expended"),
   ("interest expense", "Interest Expended"),
   ("fee income", "Fee Income"),
   ("total income", "Total Income"),
   ("operating expenses", "Operating Expenses"),
   ("employee expenses", "Employees Cost"),
   ("provisions", "Provisions"),
   ("provisions for bad debts", "Provisions"),
   ("provision for npa", "Provisions"),
   ("operating profit", "Operating Profit"),
   ("profit before provisions", "Profit Before Provisions"),
   ("net profit after tax", "Net Profit / (Loss) for the Period"),
   ("total assets", "Total Assets"),
   ("total deposits", "Total Deposits"),
   ("total advances", "Total Advances"),
   ("gross npa", "Gross NPA"),
   ("net npa", "Net NPA"),
   ("casa ratio", "CASA Ratio"),
   ("net interest margin", "Net Interest Margin"),
   ("nim", "Net Interest Margin")]

/-- `normalizeIndicatorName` from the MoneyControl scraper: look the
lower-cased, trimmed label up in the synonym table; unknown labels pass
through unchanged. -/
def normalizeIndicatorName (name : String) : String :=
  match indicatorMapping.lookup (jsTrim (jsToLowerCase name)) with
  | some canonical => canonical
  | none => name

/-- The apostrophe character, as used in canonical period labels. -/
def aposChar : Char := Char.ofNat 39

/-- Model of JS `String.prototype.slice(-2)`: the last two characters. -/
def jsSliceLast2 (s : String) : String :=
  String.mk (s.toList.drop (s.toList.length - 2))

/-- The month table of `parseQuarterHeader` in the MoneyControl scraper:
month prefix to (quarter label, fiscal-year offset).  Transcribed as
written in the source, where jan and feb carry Q3 with offset 0. -/
def mcMonthMap : List (String × String × ℕ) :=
  [("jan", ("Q3", 0)), ("feb", ("Q3", 0)), ("mar", ("Q4", 0)),
   ("apr", ("Q1", 1)), ("may", ("Q1", 1)), ("jun", ("Q1", 1)),
   ("june", ("Q1", 1)), ("jul", ("Q2", 1)), ("aug", ("Q2", 1)),
   ("sep", ("Q2", 1)), ("oct", ("Q3", 1)), ("nov", ("Q3", 1)),
   ("dec", ("Q3", 1))]

/-- One attempt of the regex `([a-zA-Z]+)\s*'?(\d{2})` at the head of
the character list: a letter run, optional whitespace, an optional
apostrophe, then two digits. -/
def headerMatchAt (cs : List Char) : Option (List Char × Char × Char) :=
  let letters := cs.takeWhile Char.isAlpha
  if letters.isEmpty then none
  else
    let rest := (cs.drop letters.length).dropWhile Char.isWhitespace
    let rest := if rest.head? = some aposChar then rest.tail else rest
    match rest with
    | d1 :: d2 :: _ =>
        if d1.isDigit ∧ d2.isDigit then some (letters, d1, d2) else none
    | _ => none

/-- Leftmost match of the regex `([a-zA-Z]+)\s*'?(\d{2})`. -/
def findHeaderMatch : List Char → Option (List Char × Char × Char)
  | [] => none
  | c :: rest =>
      match headerMatchAt (c :: rest) with
      | some r => some r
      | none => findHeaderMatch rest

/-- The result record of `parseQuarterHeader`. -/
structure QuarterInfo where
  quarter : String
  fiscalYear : String
  period : String
deriving DecidableEq, Repr

/-- `parseQuarterHeader` from the MoneyControl scraper: parse a header
such as "Sep '25" into quarter, fiscal year and canonical period label;
headers that do not match the pattern (or whose month is unknown) pass
through unchanged. -/
def parseQuarterHeader (header : String) : QuarterInfo :=
  match findHeaderMatch header.toList with
  | some (letters, d1, d2) =>
      let month := jsToLowerCase (String.mk letters)
      let year := 2000 + 10 * (d1.toNat - 48) + (d2.toNat - 48)
      match mcMonthMap.lookup month with
      | some (q, off) =>
          let fiscalYear := year + off
          { quarter := q, fiscalYear := "FY" ++ toString fiscalYear,
            period := q ++ String.mk [aposChar] ++ jsSliceLast2 (toString fiscalYear) }
      | none => { quarter := header, fiscalYear := "", period := header }
  | none => { quarter := header, fiscalYear := "", period := header }

/-- The month table of `convertToFiscalQuarter` in the Screener scraper:
exact three-letter month to (quarter number, fiscal-year offset); here
Jan, Feb and Mar all carry Q4 with offset 0. -/
def screenerMonthMap : List (String × ℕ × ℕ) :=
  [("Jan", (4, 0)), ("Feb", (4, 0)), ("Mar", (4, 0)),
   ("Apr", (1, 1)), ("May", (1, 1)), ("Jun", (1, 1)),
   ("Jul", (2, 1)), ("Aug", (2, 1)), ("Sep", (2, 1)),
   ("Oct", (3, 1)), ("Nov", (3, 1)), ("Dec", (3, 1))]

/-- Model of JS `parseInt(s, 10)`: leading whitespace, optional sign,
then the leading digit run; `none` models NaN. -/
def parseIntJs (s : String) : Option ℤ :=
  let cs := s.toList.dropWhile Char.isWhitespace
  let neg := cs.head? = some (Char.ofNat 45)
  let cs := if cs.head? = some (Char.ofNat 45) ∨ cs.head? = some (Char.ofNat 43)
            then cs.tail else cs
  let digits := cs.takeWhile Char.isDigit
  if digits.isEmpty then none
  else
    let n : ℕ := digits.foldl (fun acc c => acc * 10 + (c.toNat - 48)) 0
    some (if neg then -(n : ℤ) else (n : ℤ))

/-- `convertToFiscalQuarter` from the Screener scraper: convert a date
such as "Sep 2025" to the fiscal-quarter label "Q2'26"; dates that do
not split into two space-separated parts or whose month is unknown pass
through unchanged.  A year that fails `parseInt` yields JS
`"NaN".slice(-2)`, i.e. the label ends in "aN". -/
def convertToFiscalQuarter (screenerDate : String) : String :=
  match jsSplitOnSpace (jsTrim screenerDate) with
  | [month, yearStr] =>
      match screenerMonthMap.lookup month with
      | none => screenerDate
      | some (q, off) =>
          match parseIntJs yearStr with
          | some year =>
              "Q" ++ toString q ++ String.mk [aposChar] ++
                jsSliceLast2 (toString (year + (off : ℤ)))
          | none => "Q" ++ toString q ++ String.mk [aposChar] ++ "aN"
  | _ => screenerDate

/-- The literal raw indicator map of the spec's worked example
(§8 "Chained identities"). -/
def exampleInput : RawFinancialData :=
  [("Total Income From Operations", .num 22697),
   ("Purchase of Traded Goods", .num 105),
   ("Increase / Decrease in Stocks", .num (-17)),
   ("Employees Cost", .num 13616),
   ("Depreciation", .num 691),
   ("Other Expenses", .num 4620),
   ("Interest", .num 50),
   ("Other Income", .num 947)]

/-! ## Fallback orchestrator (`scrapingOrchestrator.ts`)

The orchestrator drives the 3-step fallback chain per company (Screener,
MoneyControl, Perplexity-URL-assisted MoneyControl).  External adapters
are modelled as pure functions in an `AdapterEnv` (an `Except.error`
models a thrown error); progress telemetry, logging, the database
updates and the rate-limiting delays are effects the claims do not
mention and are dropped; the network calls the chain performs are
recorded as an explicit event trace. -/

/-- The data sources of `scrapingOrchestrator.ts`. -/
inductive DataSource where
  | screener
  | moneycontrol
  | perplexity
  | perplexityUrl
deriving DecidableEq, Repr

/-- moneyControlScraper's `QuarterlyData`. -/
structure QuarterlyData where
  quarter : String
  period : String
  indicators : RawFinancialData
deriving DecidableEq, Repr

/-- A quarter entry of a Screener scrape result. -/
structure ScreenerQuarter where
  quarter : String
  period : String
  rawData : RawFinancialData
deriving DecidableEq, Repr

/-- screenerScraper's `ScreenerResult`, restricted to the field the
orchestrator reads (`scrapeScreener` never throws; a failure comes back
as an empty quarters list). -/
structure ScreenerResult where
  quarters : List ScreenerQuarter
deriving DecidableEq, Repr

/-- An entry of `companiesToProcess`. -/
structure Company where
  name : String
  url : String
  moneyControlUrl : String
deriving DecidableEq, Repr

/-- A network call performed by the fallback chain. -/
inductive CallEvent where
  | screenerCall (company : String)
  | moneyControlCall (url : String)
  | perplexityUrlCall (company : String)
deriving DecidableEq, Repr

/-- The external adapters, as pure functions: `scrapeScreener` by
company name, `scrapeMoneyControl` by URL and requested quarter count,
and `getMoneyControlUrlFromPerplexity` by company name. -/
structure AdapterEnv where
  screener : String → ScreenerResult
  moneyControl : String → ℕ → Except String (List QuarterlyData)
  perplexityUrl : String → Except String (Option String)

/-- The revenue key list probed by `hasValidData`. -/
def hvdRevenueKeys : List String :=
  ["Net Sales / Income from Operations", "Revenue", "Net Sales", "Sales",
   "Income"]

/-- The profit key list probed by `hasValidData`. -/
def hvdProfitKeys : List String :=
  ["Net Profit / (Loss) for the Period", "Net Profit", "Profit", "PAT",
   "Net_Profit"]

/-- `hasValidData` from scrapingOrchestrator.ts: some quarter holds a
defined, non-"--" value under a revenue or profit key. -/
def hasValidData (data : List QuarterlyData) : Bool :=
  data.any fun q =>
    let hasRevenue := hvdRevenueKeys.any fun key =>
      match jsGet q.indicators key with
      | some v => v != RawValue.str "--"
      | none => false
    let hasProfit := hvdProfitKeys.any fun key =>
      match jsGet q.indicators key with
      | some v => v != RawValue.str "--"
      | none => false
    hasRevenue || hasProfit

/-- JS `a || b` on strings: `b` when `a` is empty (falsy), else `a`. -/
def jsOrString (a b : String) : String :=
  if a = "" then b else a

/-- The orchestrator's step-1 mapping of a Screener quarter into
`QuarterlyData` (`quarter: q.quarter || q.period`, etc.). -/
def mapScreenerQuarter (q : ScreenerQuarter) : QuarterlyData :=
  { quarter := jsOrString q.quarter q.period,
    period := jsOrString q.quarter q.period,
    indicators := q.rawData }

/-- The `quarterlyData` produced by step 1: the mapped Screener quarters
when the result is non-empty, else the empty list. -/
def screenerQuarterlyData (env : AdapterEnv) (c : Company) : List QuarterlyData :=
  if (env.screener c.name).quarters.length > 0 then
    (env.screener c.name).quarters.map mapScreenerQuarter
  else []

/-- A processed quarter of a company result (quarter, period, raw data
and calculated metrics). -/
structure ProcessedQuarter where
  quarter : String
  period : String
  rawData : RawFinancialData
  calculatedMetrics : CalculatedMetrics
deriving DecidableEq, Repr

/-- One attempt of the regex `Q(\d)'(\d{2})` at the head of the
character list. -/
def periodMatchAt (cs : List Char) : Option (Char × Char × Char) :=
  match cs with
  | q :: d :: a :: y1 :: y2 :: _ =>
      if q = Char.ofNat 81 ∧ d.isDigit ∧ a = aposChar ∧
          y1.isDigit ∧ y2.isDigit then
        some (d, y1, y2)
      else none
  | _ => none

/-- Leftmost match of the regex `Q(\d)'(\d{2})` used by the
orchestrator's quarter filter. -/
def findPeriodMatch : List Char → Option (Char × Char × Char)
  | [] => none
  | c :: rest =>
      match periodMatchAt (c :: rest) with
      | some r => some r
      | none => findPeriodMatch rest

/-- The orchestrator's selection filter over a processed quarter: when
the period matches `Q(\d)'(\d{2})`, an exact membership test of the
quarter number and of `2000 + yy` against the requested lists; a period
that does not match the pattern is kept ("safety" in the source). -/
def periodFilter (selectedQuarters : List String)
    (selectedFiscalYears : List ℤ) (q : ProcessedQuarter) : Bool :=
  match findPeriodMatch q.period.toList with
  | none => true
  | some (d, y1, y2) =>
      let quarterNum := "Q" ++ String.mk [d]
      let fiscalYear : ℤ := 2000 + ((10 * (y1.toNat - 48) + (y2.toNat - 48) : ℕ) : ℤ)
      selectedQuarters.contains quarterNum &&
        selectedFiscalYears.contains fiscalYear

/-- The orchestrator's per-quarter processing: calculate derived metrics
for every quarter, then filter by the requested selection. -/
def processQuarters (selectedQuarters : List String)
    (selectedFiscalYears : List ℤ) (data : List QuarterlyData) :
    List ProcessedQuarter :=
  (data.map fun q =>
      { quarter := q.quarter, period := q.period, rawData := q.indicators,
        calculatedMetrics := (calculateDerivedMetrics q.indicators).1 }).filter
    (periodFilter selectedQuarters selectedFiscalYears)

/-- excelProcessor's `CompanyQuarterlyData`: one result record per
completed company. -/
structure CompanyResult where
  companyName : String
  dataSource : DataSource
  quarters : List ProcessedQuarter
deriving DecidableEq, Repr

/-- The outcome of processing one company: a pushed `CompanyResult`, or
the company marked failed with the error message pushed to the error
list. -/
inductive CompanyOutcome where
  | ok (result : CompanyResult)
  | failed (error : String)
deriving DecidableEq, Repr

/-- Whether the outcome completed the company. -/
def CompanyOutcome.isOk : CompanyOutcome → Bool
  | .ok _ => true
  | .failed _ => false

/-- The error thrown when step 1 fails and no MoneyControl URL is
configured (line 198 of scrapingOrchestrator.ts). -/
def noSourcesMsg (name : String) : String :=
  "No data sources available for " ++ name ++
    ". Screener failed and no MoneyControl URL configured."

/-- The step-3 failure message prefix (the inner catch at line 247;
the truncation `substring(0, 100)` of the cause is not modelled). -/
def allStepsFailedMsg (cause : String) : String :=
  "All fallback steps failed: " ++ cause

/-- STEP 3 of the fallback chain: ask Perplexity for a MoneyControl URL
and rescrape when one is returned; accept whatever quarterly data is
then in hand if it passes the validity check (source line 239 re-checks
the `quarterlyData` variable, which still holds the earlier steps' data
when Perplexity returns no URL); any thrown error fails the company
with the step-3 message. -/
def processStep3 (env : AdapterEnv) (selectedQuarters : List String)
    (selectedFiscalYears : List ℤ) (totalQuarters : ℕ) (company : Company)
    (current : List QuarterlyData) (trace : List CallEvent) :
    CompanyOutcome × List CallEvent :=
  let trace3 := trace ++ [CallEvent.perplexityUrlCall company.name]
  match env.perplexityUrl company.name with
  | .error e => (.failed (allStepsFailedMsg e), trace3)
  | .ok none =>
      if current.length ≠ 0 ∧ hasValidData current then
        (.ok { companyName := company.name, dataSource := .perplexityUrl,
               quarters := processQuarters selectedQuarters selectedFiscalYears
                 current },
         trace3)
      else
        (.failed (allStepsFailedMsg "Error: No valid data from Perplexity-provided URL"),
         trace3)
  | .ok (some url) =>
      let trace4 := trace3 ++ [CallEvent.moneyControlCall url]
      match env.moneyControl url totalQuarters with
      | .error e => (.failed (allStepsFailedMsg e), trace4)
      | .ok qd =>
          if qd.length ≠ 0 ∧ hasValidData qd then
            (.ok { companyName := company.name, dataSource := .perplexityUrl,
                   quarters := processQuarters selectedQuarters
                     selectedFiscalYears qd },
             trace4)
          else
            (.failed (allStepsFailedMsg "Error: No valid data from Perplexity-provided URL"),
             trace4)

/-- The per-company body of the orchestrator loop (steps 1-3 and the
metric processing), with the network calls recorded in order.  A
`failed` outcome covers both the inner step-3 catch and the outer
company-level catch: either way the company is marked failed and
exactly one error entry is pushed. -/
def processCompany (env : AdapterEnv) (selectedQuarters : List String)
    (selectedFiscalYears : List ℤ) (company : Company) :
    CompanyOutcome × List CallEvent :=
  let totalQuarters :=
    max (selectedQuarters.length * selectedFiscalYears.length) 8
  -- STEP 1: Screener.in (primary source)
  let quarterlyData1 := screenerQuarterlyData env company
  let trace1 := [CallEvent.screenerCall company.name]
  if quarterlyData1.length ≠ 0 ∧ hasValidData quarterlyData1 then
    (.ok { companyName := company.name, dataSource := .screener,
           quarters := processQuarters selectedQuarters selectedFiscalYears
             quarterlyData1 },
     trace1)
  else
    -- STEP 2: MoneyControl fallback, only if a URL is configured
    if company.moneyControlUrl = "" then
      (.failed ("Error: " ++ noSourcesMsg company.name), trace1)
    else
      let trace2 := trace1 ++ [CallEvent.moneyControlCall company.moneyControlUrl]
      match env.moneyControl company.moneyControlUrl totalQuarters with
      | .ok mcData =>
          if mcData.length ≠ 0 ∧ hasValidData mcData then
            (.ok { companyName := company.name, dataSource := .moneycontrol,
                   quarters := processQuarters selectedQuarters
                     selectedFiscalYears mcData },
             trace2)
          else
            processStep3 env selectedQuarters selectedFiscalYears totalQuarters
              company mcData trace2
      | .error _ =>
          processStep3 env selectedQuarters selectedFiscalYears totalQuarters
            company quarterlyData1 trace2

/-- An entry of the run's structured error list. -/
structure ErrorEntry where
  company : String
  error : String
  timestamp : ℕ
deriving DecidableEq, Repr

/-- The mutable per-run accumulators of the orchestrator loop. -/
structure RunState where
  allCompanyData : List CompanyResult := []
  errors : List ErrorEntry := []
  completedCompanies : List String := []
  failedCompanies : List String := []
deriving DecidableEq, Repr

/-- One iteration of the company loop: push the company result and mark
completed, or push one error entry and mark failed (`Date.now()` is
modelled as 0). -/
def runStep (env : AdapterEnv) (selectedQuarters : List String)
    (selectedFiscalYears : List ℤ) (st : RunState) (company : Company) :
    RunState :=
  match (processCompany env selectedQuarters selectedFiscalYears company).1 with
  | .ok r =>
      { st with allCompanyData := st.allCompanyData ++ [r],
                completedCompanies := st.completedCompanies ++ [company.name] }
  | .failed e =>
      { st with errors := st.errors ++
                  [{ company := company.name, error := e, timestamp := 0 }],
                failedCompanies := st.failedCompanies ++ [company.name] }

/-- The orchestrator's company loop. -/
def runCompanies (env : AdapterEnv) (selectedQuarters : List String)
    (selectedFiscalYears : List ℤ) (companies : List Company) : RunState :=
  companies.foldl (runStep env selectedQuarters selectedFiscalYears) {}

/-- The `companiesToProcess` determination at the top of
`orchestrateFinancialDataScraping`: in test mode a single company (the
given test company when truthy, else the default "TCS"), otherwise one
entry per selected company; every constructed entry carries empty `url`
and `moneyControlUrl` strings.  `none` models the no-companies-selected
early return. -/
def determineCompanies (testMode : Bool) (testCompany : Option String)
    (selectedCompanies : Option (List String)) : Option (List Company) :=
  if testMode then
    match testCompany with
    | some s => if s ≠ "" then some [⟨s, "", ""⟩] else some [⟨"TCS", "", ""⟩]
    | none => some [⟨"TCS", "", ""⟩]
  else
    match selectedCompanies with
    | some l => if l.length > 0 then some (l.map fun n => ⟨n, "", ""⟩) else none
    | none => none

/-- The run-level result (`ScrapingResult` without the Excel buffer:
spreadsheet generation is outside the orchestration core). -/
structure ScrapingResultModel where
  success : Bool
  errors : List ErrorEntry
  extractedData : List CompanyResult
deriving DecidableEq, Repr

/-- `orchestrateFinancialDataScraping`: determine the companies, run the
fallback chain over each, and return the results, the structured errors
and the overall-success flag (true iff at least one company
completed). -/
def orchestrateFinancialDataScraping (env : AdapterEnv)
    (selectedQuarters : List String) (selectedFiscalYears : List ℤ)
    (testMode : Bool) (testCompany : Option String)
    (selectedCompanies : Option (List String)) : ScrapingResultModel :=
  match determineCompanies testMode testCompany selectedCompanies with
  | none =>
      { success := false,
        errors := [{ company := "System", error := "No companies selected",
                     timestamp := 0 }],
        extractedData := [] }
  | some companies =>
      let st := runCompanies env selectedQuarters selectedFiscalYears companies
      { success := st.completedCompanies.length > 0,
        errors := st.errors,
        extractedData := st.allCompanyData }


/-- A test environment in which every adapter fails. -/
def envAllFail : AdapterEnv :=
  { screener := fun _ => ⟨[]⟩,
    moneyControl := fun _ _ => .error "Error: timeout",
    perplexityUrl := fun _ => .error "Error: 401" }

/-- A quarter of meaningful MoneyControl data for the tests. -/
def mcQuarter : QuarterlyData :=
  { quarter := "Sep 25", period := "Q2'26",
    indicators := [("Net Sales / Income from Operations", .num 100)] }

/-- A test environment in which Screener yields nothing and MoneyControl
succeeds. -/
def envMcOk : AdapterEnv :=
  { screener := fun _ => ⟨[]⟩,
    moneyControl := fun _ _ => .ok [mcQuarter],
    perplexityUrl := fun _ => .error "Error: 401" }

/-- A Screener quarter with meaningful data for the tests. -/
def screenerGoodQuarter : ScreenerQuarter :=
  { quarter := "Q2'26", period := "Q2'26",
    rawData := [("Total Income From Operations", .num 100),
                ("Net Profit / (Loss) for the Period", .num 10)] }

/-- A test environment in which Screener succeeds for every company
except "B" and the other adapters fail. -/
def envSecondFails : AdapterEnv :=
  { screener := fun name =>
      if name = "B" then ⟨[]⟩ else ⟨[screenerGoodQuarter]⟩,
    moneyControl := fun _ _ => .error "Error: timeout",
    perplexityUrl := fun _ => .error "Error: 401" }

/-- Three test companies; only "B" has a MoneyControl URL configured. -/
def threeCompanies : List Company :=
  [⟨"A", "", ""⟩, ⟨"B", "", "https://mc/B"⟩, ⟨"C", "", ""⟩]

/-- A quarter whose period label does not match the canonical pattern. -/
def unknownQuarter : QuarterlyData :=
  { quarter := "Unknown", period := "Unknown",
    indicators := [("Net Sales / Income from Operations", .num 5)] }

end FRB

namespace FRB

theorem calc_Revenue_eq (raw : RawFinancialData) :
    (calculateDerivedMetrics raw).1.Revenue = calcRevenue raw := rfl

theorem calc_Contribution_eq (raw : RawFinancialData) :
    (calculateDerivedMetrics raw).1.Contribution =
      (contributionStep (toNumber (jsGet raw "Total Income From Operations"))
        (toNumber (jsGet raw "Purchase of Traded Goods"))
        (toNumber (jsGet raw "Increase / Decrease in Stocks"))).1 := rfl

theorem calc_opEBITDA_eq (raw : RawFinancialData) :
    (calculateDerivedMetrics raw).1.opEBITDA =
      (opEBITDAStep (calculateDerivedMetrics raw).1.Contribution
        (toNumber (jsGet raw "Employees Cost"))
        (toNumber (jsGet raw "Other Expenses"))
        ((toNumber (jsGet raw "Op. EBITDA")).or
          (toNumber (jsGet raw "Operating Profit")))).1 := rfl

theorem calc_opEBIT_eq (raw : RawFinancialData) :
    (calculateDerivedMetrics raw).1.opEBIT =
      (opEBITStep (calculateDerivedMetrics raw).1.opEBITDA
        (toNumber (jsGet raw "Depreciation"))).1 := rfl

theorem calc_opPBT_eq (raw : RawFinancialData) :
    (calculateDerivedMetrics raw).1.opPBT =
      (opPBTStep (calculateDerivedMetrics raw).1.opEBIT
        (toNumber (jsGet raw "Interest"))).1 := rfl

theorem calc_PBT_eq (raw : RawFinancialData) :
    (calculateDerivedMetrics raw).1.PBT =
      (pbtStep (calculateDerivedMetrics raw).1.opPBT
        (toNumber (jsGet raw "Other Income"))
        ((toNumber (jsGet raw "P/L Before Tax")).or
          (toNumber (jsGet raw "Profit before tax")))).1 := rfl

theorem calc_opEBITDApct_eq (raw : RawFinancialData) :
    (calculateDerivedMetrics raw).1.opEBITDApct =
      pctBlock (calculateDerivedMetrics raw).1.opEBITDA (calcRevenue raw)
        (pctBlock (calculateDerivedMetrics raw).1.opEBITDA none none) := rfl

theorem calc_opEBITpct_eq (raw : RawFinancialData) :
    (calculateDerivedMetrics raw).1.opEBITpct =
      pctBlock (calculateDerivedMetrics raw).1.opEBIT (calcRevenue raw)
        (pctBlock (calculateDerivedMetrics raw).1.opEBIT none none) := rfl

theorem calc_issues_eq (raw : RawFinancialData) :
    (calculateDerivedMetrics raw).2 =
      (contributionStep (toNumber (jsGet raw "Total Income From Operations"))
        (toNumber (jsGet raw "Purchase of Traded Goods"))
        (toNumber (jsGet raw "Increase / Decrease in Stocks"))).2 ++
      (opEBITDAStep (calculateDerivedMetrics raw).1.Contribution
        (toNumber (jsGet raw "Employees Cost"))
        (toNumber (jsGet raw "Other Expenses"))
        ((toNumber (jsGet raw "Op. EBITDA")).or
          (toNumber (jsGet raw "Operating Profit")))).2 ++
      (opEBITStep (calculateDerivedMetrics raw).1.opEBITDA
        (toNumber (jsGet raw "Depreciation"))).2 ++
      (opPBTStep (calculateDerivedMetrics raw).1.opEBIT
        (toNumber (jsGet raw "Interest"))).2 ++
      (pbtStep (calculateDerivedMetrics raw).1.opPBT
        (toNumber (jsGet raw "Other Income"))
        ((toNumber (jsGet raw "P/L Before Tax")).or
          (toNumber (jsGet raw "Profit before tax")))).2 ++
      pbtValidationStep (calculateDerivedMetrics raw).1.PBT
        (toNumber (jsGet raw "P/L Before Tax")) := by
  simp only [calculateDerivedMetrics]

theorem pctBlock_rev_none (b c : Option ℚ) : pctBlock b none c = c := by
  cases b <;> rfl

theorem pctBlock_rev_zero (b c : Option ℚ) : pctBlock b (some 0) c = c := by
  cases b <;> simp [pctBlock]

theorem pctBlock_some (b r : ℚ) (c : Option ℚ) (h : r ≠ 0) :
    pctBlock (some b) (some r) c = some (b / r * 100) := by
  simp [pctBlock, h]

end FRB

namespace FRB

/-- C3: with Total Income From Operations present, Contribution equals
that value minus present-or-zero Purchase of Traded Goods and
Increase / Decrease in Stocks; with it absent, Contribution is absent
and an error-severity issue for metric Contribution is emitted. -/
theorem C3_contribution (raw : RawFinancialData) :
    (∀ ti : ℚ, toNumber (jsGet raw "Total Income From Operations") = some ti →
      (calculateDerivedMetrics raw).1.Contribution =
        some (ti - (toNumber (jsGet raw "Purchase of Traded Goods")).getD 0
                - (toNumber (jsGet raw "Increase / Decrease in Stocks")).getD 0)) ∧
    (toNumber (jsGet raw "Total Income From Operations") = none →
      (calculateDerivedMetrics raw).1.Contribution = none ∧
      ∃ iss ∈ (calculateDerivedMetrics raw).2,
        iss.metric = "Contribution" ∧ iss.severity = .error) := by
  constructor
  · intro ti h
    rw [calc_Contribution_eq, h, contributionStep]
  · intro h
    refine ⟨by rw [calc_Contribution_eq, h, contributionStep], ?_⟩
    refine ⟨{ metric := "Contribution",
              issue := "Total Income From Operations is missing",
              severity := .error }, ?_, rfl, rfl⟩
    rw [calc_issues_eq, h]
    simp [contributionStep]

theorem C3_witness :
    toNumber (jsGet exampleInput "Total Income From Operations") = some 22697 ∧
    (calculateDerivedMetrics exampleInput).1.Contribution =
      some (22697 - (toNumber (jsGet exampleInput "Purchase of Traded Goods")).getD 0
              - (toNumber (jsGet exampleInput "Increase / Decrease in Stocks")).getD 0) :=
  ⟨by decide, (C3_contribution exampleInput).1 22697 (by decide)⟩

end FRB

namespace FRB

/-- C2: whenever all operands are present the chained identities
Op. EBIT = Op. EBITDA - Depreciation, Op. PBT = Op. EBIT - Interest and
PBT = Op. PBT + Other Income hold, and on the spec's literal example
input the calculator returns Contribution 22609, Op. EBITDA 4373,
Op. EBIT 3682, Op. PBT 3632 and PBT 4579. -/
theorem C2_chained_identities :
    (∀ (raw : RawFinancialData) (e d : ℚ),
      (calculateDerivedMetrics raw).1.opEBITDA = some e →
      toNumber (jsGet raw "Depreciation") = some d →
      (calculateDerivedMetrics raw).1.opEBIT = some (e - d)) ∧
    (∀ (raw : RawFinancialData) (b i : ℚ),
      (calculateDerivedMetrics raw).1.opEBIT = some b →
      toNumber (jsGet raw "Interest") = some i →
      (calculateDerivedMetrics raw).1.opPBT = some (b - i)) ∧
    (∀ (raw : RawFinancialData) (p oi : ℚ),
      (calculateDerivedMetrics raw).1.opPBT = some p →
      toNumber (jsGet raw "Other Income") = some oi →
      (calculateDerivedMetrics raw).1.PBT = some (p + oi)) ∧
    ((calculateDerivedMetrics exampleInput).1.Contribution = some 22609 ∧
     (calculateDerivedMetrics exampleInput).1.opEBITDA = some 4373 ∧
     (calculateDerivedMetrics exampleInput).1.opEBIT = some 3682 ∧
     (calculateDerivedMetrics exampleInput).1.opPBT = some 3632 ∧
     (calculateDerivedMetrics exampleInput).1.PBT = some 4579) := by
  refine ⟨?_, ?_, ?_, by decide⟩
  · intro raw e d he hd
    rw [calc_opEBIT_eq, he, hd, opEBITStep]
  · intro raw b i hb hi
    rw [calc_opPBT_eq, hb, hi, opPBTStep]
  · intro raw p oi hp hoi
    rw [calc_PBT_eq, hp, hoi, pbtStep]

theorem C2_witness :
    (calculateDerivedMetrics exampleInput).1.opEBITDA = some 4373 ∧
    toNumber (jsGet exampleInput "Depreciation") = some 691 ∧
    (calculateDerivedMetrics exampleInput).1.opEBIT = some (4373 - 691) :=
  ⟨by decide, by decide,
    C2_chained_identities.1 exampleInput 4373 691 (by decide) (by decide)⟩

/-- C4: with Revenue absent or zero the two percentage metrics are
absent; with Revenue present and non-zero and the base metric present,
the percentage is 100 x base / Revenue. -/
theorem C4_percentage_guard (raw : RawFinancialData) :
    ((calculateDerivedMetrics raw).1.Revenue = none ∨
        (calculateDerivedMetrics raw).1.Revenue = some 0 →
      (calculateDerivedMetrics raw).1.opEBITDApct = none ∧
      (calculateDerivedMetrics raw).1.opEBITpct = none) ∧
    (∀ r e : ℚ, (calculateDerivedMetrics raw).1.Revenue = some r → r ≠ 0 →
      (calculateDerivedMetrics raw).1.opEBITDA = some e →
      (calculateDerivedMetrics raw).1.opEBITDApct = some (100 * e / r)) ∧
    (∀ r e : ℚ, (calculateDerivedMetrics raw).1.Revenue = some r → r ≠ 0 →
      (calculateDerivedMetrics raw).1.opEBIT = some e →
      (calculateDerivedMetrics raw).1.opEBITpct = some (100 * e / r)) := by
  refine ⟨?_, ?_, ?_⟩
  · intro h
    rw [calc_Revenue_eq] at h
    rcases h with h | h <;>
      rw [calc_opEBITDApct_eq, calc_opEBITpct_eq, h] <;>
      constructor <;>
      simp [pctBlock_rev_none, pctBlock_rev_zero]
  · intro r e hr hne he
    rw [calc_Revenue_eq] at hr
    rw [calc_opEBITDApct_eq, hr, he, pctBlock_some _ _ _ hne]
    congr 1
    ring
  · intro r e hr hne he
    rw [calc_Revenue_eq] at hr
    rw [calc_opEBITpct_eq, hr, he, pctBlock_some _ _ _ hne]
    congr 1
    ring

theorem C4_witness :
    ((calculateDerivedMetrics []).1.Revenue = none ∧
     (calculateDerivedMetrics []).1.opEBITDApct = none ∧
     (calculateDerivedMetrics []).1.opEBITpct = none) ∧
    ((calculateDerivedMetrics exampleInput).1.Revenue = some 22697 ∧
     (calculateDerivedMetrics exampleInput).1.opEBITDApct =
       some (100 * 4373 / 22697)) :=
  ⟨⟨by decide,
    (C4_percentage_guard []).1 (Or.inl (by decide))⟩,
   ⟨by decide,
    (C4_percentage_guard exampleInput).2.1 22697 4373 (by decide) (by norm_num)
      (by decide)⟩⟩

end FRB

namespace FRB

theorem lookup_val_mem {α β : Type} [BEq α] (l : List (α × β)) (k : α) (v : β)
    (h : l.lookup k = some v) : v ∈ l.map Prod.snd := by
  induction l with
  | nil => simp [List.lookup] at h
  | cons p t ih =>
      rw [List.lookup] at h
      split at h
      · simp only [Option.some.injEq] at h
        simp [h.symm]
      · simp [ih h]

theorem mapping_values_fixed :
    ∀ v ∈ indicatorMapping.map Prod.snd, normalizeIndicatorName v = v := by
  decide

/-- C10: the indicator normalizer is idempotent; every canonical label
of the synonym table is returned unchanged, and a label whose
lower-cased trimmed form is not in the table passes through unchanged. -/
theorem C10_normalizer_idempotent :
    (∀ l : String,
      normalizeIndicatorName (normalizeIndicatorName l) = normalizeIndicatorName l) ∧
    (∀ v ∈ indicatorMapping.map Prod.snd, normalizeIndicatorName v = v) ∧
    (∀ l : String,
      indicatorMapping.lookup (jsTrim (jsToLowerCase l)) = none →
      normalizeIndicatorName l = l) := by
  refine ⟨?_, mapping_values_fixed, ?_⟩
  · intro l
    unfold normalizeIndicatorName
    cases h : indicatorMapping.lookup (jsTrim (jsToLowerCase l)) with
    | none => rw [h]
    | some v =>
        have hv : normalizeIndicatorName v = v :=
          mapping_values_fixed v (lookup_val_mem _ _ _ h)
        unfold normalizeIndicatorName at hv
        exact hv
  · intro l h
    unfold normalizeIndicatorName
    rw [h]

theorem C10_witness :
    normalizeIndicatorName (normalizeIndicatorName "Net Sales") =
      normalizeIndicatorName "Net Sales" ∧
    normalizeIndicatorName "Employees Cost" = "Employees Cost" ∧
    normalizeIndicatorName "Some Unknown Label" = "Some Unknown Label" :=
  ⟨C10_normalizer_idempotent.1 "Net Sales",
   C10_normalizer_idempotent.2.1 "Employees Cost" (by decide),
   C10_normalizer_idempotent.2.2 "Some Unknown Label" (by decide)⟩

end FRB

namespace FRB

/-- C8: the quarter-header parser maps "Sep '25" to Q2'26 and "Mar '25"
to Q4'25 and passes unparseable labels through unchanged, but it maps
"Jan '25" to Q3'25, NOT to Q4'25 as the documented Apr-Mar fiscal
convention (and the claim) require; the sibling Screener converter maps
January to Q4 of the same calendar year as documented. -/
theorem C8_period_mapping :
    (parseQuarterHeader "Sep '25").period = "Q2'26" ∧
    (parseQuarterHeader "Mar '25").period = "Q4'25" ∧
    (parseQuarterHeader "whatever").period = "whatever" ∧
    (parseQuarterHeader "Jan '25").period = "Q3'25" ∧
    "Q3'25" ≠ "Q4'25" ∧
    convertToFiscalQuarter "Jan 2025" = "Q4'25" := by
  decide

end FRB

namespace FRB

theorem processCompany_noUrl (env : AdapterEnv) (selQ : List String)
    (selFY : List ℤ) (c : Company) (hurl : c.moneyControlUrl = "")
    (hs : hasValidData (screenerQuarterlyData env c) = false) :
    processCompany env selQ selFY c =
      (.failed ("Error: " ++ noSourcesMsg c.name), [.screenerCall c.name]) := by
  simp [processCompany, hs, hurl]

theorem processCompany_step2_wins (env : AdapterEnv) (selQ : List String)
    (selFY : List ℤ) (c : Company) (d : List QuarterlyData)
    (hs : hasValidData (screenerQuarterlyData env c) = false)
    (hurl : c.moneyControlUrl ≠ "")
    (hmc : env.moneyControl c.moneyControlUrl
             (max (selQ.length * selFY.length) 8) = .ok d)
    (hne : d ≠ []) (hvd : hasValidData d = true) :
    processCompany env selQ selFY c =
      (.ok { companyName := c.name, dataSource := .moneycontrol,
             quarters := processQuarters selQ selFY d },
       [.screenerCall c.name, .moneyControlCall c.moneyControlUrl]) := by
  simp [processCompany, hs, hurl, hmc, hne, hvd]

end FRB

namespace FRB

/-- C1 counterexample: with no MoneyControl URL configured and step 1
failing, the company is marked failed with no Perplexity (step-3) call
ever made, contradicting the claim that the orchestrator proceeds to
step 3 before the company can be marked failed. -/
theorem C1_counterexample :
    (processCompany envAllFail ["Q1"] [2026] ⟨"TCS", "", ""⟩).1 =
      .failed ("Error: " ++ noSourcesMsg "TCS") ∧
    (processCompany envAllFail ["Q1"] [2026] ⟨"TCS", "", ""⟩).2 =
      [.screenerCall "TCS"] ∧
    ∀ s, CallEvent.perplexityUrlCall s ∉
      (processCompany envAllFail ["Q1"] [2026] ⟨"TCS", "", ""⟩).2 := by
  refine ⟨by decide, by decide, ?_⟩
  intro s h
  have h2 : (processCompany envAllFail ["Q1"] [2026] ⟨"TCS", "", ""⟩).2 =
      [.screenerCall "TCS"] := by decide
  rw [h2] at h
  simp at h

/-- C1 (amended): when no MoneyControl URL is configured and step 1
fails, the orchestrator skips step 2 (no MoneyControl call) and marks
the company failed immediately; step 3 is never attempted. -/
theorem C1_no_url_fails_immediately (env : AdapterEnv) (selQ : List String)
    (selFY : List ℤ) (c : Company) (hurl : c.moneyControlUrl = "")
    (hs : hasValidData (screenerQuarterlyData env c) = false) :
    (processCompany env selQ selFY c).1 =
      .failed ("Error: " ++ noSourcesMsg c.name) ∧
    (processCompany env selQ selFY c).2 = [.screenerCall c.name] := by
  rw [processCompany_noUrl env selQ selFY c hurl hs]
  exact ⟨rfl, rfl⟩

theorem C1_witness :
    (⟨"TCS", "", ""⟩ : Company).moneyControlUrl = "" ∧
    hasValidData (screenerQuarterlyData envAllFail ⟨"TCS", "", ""⟩) = false ∧
    (processCompany envAllFail ["Q1"] [2026] ⟨"TCS", "", ""⟩).2 =
      [.screenerCall "TCS"] :=
  ⟨rfl, by decide,
   (C1_no_url_fails_immediately envAllFail ["Q1"] [2026] ⟨"TCS", "", ""⟩
      rfl (by decide)).2⟩

/-- C5: when step 1 fails the meaningful-data predicate and step 2
(MoneyControl) succeeds, the company result records dataSourceUsed =
moneycontrol and no Perplexity (step-3) call occurs. -/
theorem C5_first_success_wins (env : AdapterEnv) (selQ : List String)
    (selFY : List ℤ) (c : Company) (d : List QuarterlyData)
    (hs : hasValidData (screenerQuarterlyData env c) = false)
    (hurl : c.moneyControlUrl ≠ "")
    (hmc : env.moneyControl c.moneyControlUrl
             (max (selQ.length * selFY.length) 8) = .ok d)
    (hne : d ≠ []) (hvd : hasValidData d = true) :
    (processCompany env selQ selFY c).1 =
      .ok { companyName := c.name, dataSource := .moneycontrol,
            quarters := processQuarters selQ selFY d } ∧
    (∀ s, CallEvent.perplexityUrlCall s ∉ (processCompany env selQ selFY c).2) := by
  rw [processCompany_step2_wins env selQ selFY c d hs hurl hmc hne hvd]
  refine ⟨rfl, ?_⟩
  intro s h
  simp at h

theorem C5_witness :
    hasValidData (screenerQuarterlyData envMcOk ⟨"TCS", "", "https://mc/TCS"⟩) = false ∧
    hasValidData [mcQuarter] = true ∧
    (processCompany envMcOk ["Q2"] [2026] ⟨"TCS", "", "https://mc/TCS"⟩).1 =
      .ok { companyName := "TCS", dataSource := .moneycontrol,
            quarters := processQuarters ["Q2"] [2026] [mcQuarter] } :=
  ⟨by decide, by decide,
   (C5_first_success_wins envMcOk ["Q2"] [2026] ⟨"TCS", "", "https://mc/TCS"⟩
      [mcQuarter] (by decide) (by decide) rfl (by decide) (by decide)).1⟩

/-- C6: every company constructed by the public entry point carries an
empty MoneyControl URL, and consequently a company whose step 1 yields
no meaningful data is immediately marked failed after the single
Screener call - steps 2 and 3 are unreachable. -/
theorem C6_fallbacks_unreachable :
    (∀ (tm : Bool) (tc : Option String) (sel : Option (List String))
       (companies : List Company),
       determineCompanies tm tc sel = some companies →
       ∀ c ∈ companies, c.moneyControlUrl = "") ∧
    (∀ (env : AdapterEnv) (selQ : List String) (selFY : List ℤ) (c : Company),
       c.moneyControlUrl = "" →
       hasValidData (screenerQuarterlyData env c) = false →
       (processCompany env selQ selFY c).1 =
         .failed ("Error: " ++ noSourcesMsg c.name) ∧
       (processCompany env selQ selFY c).2 = [.screenerCall c.name]) := by
  constructor
  · intro tm tc sel companies h c hc
    unfold determineCompanies at h
    split at h
    · cases tc with
      | some s =>
          simp only at h
          split at h <;>
            (simp only [Option.some.injEq] at h; subst h; simp at hc; subst hc; rfl)
      | none =>
          simp only [Option.some.injEq] at h
          subst h
          simp at hc
          subst hc
          rfl
    · cases sel with
      | some l =>
          simp only at h
          split at h
          · simp only [Option.some.injEq] at h
            subst h
            simp only [List.mem_map] at hc
            obtain ⟨n, _, rfl⟩ := hc
            rfl
          · exact absurd h (by simp)
      | none => exact absurd h (by simp)
  · intro env selQ selFY c hurl hs
    rw [processCompany_noUrl env selQ selFY c hurl hs]
    exact ⟨rfl, rfl⟩

theorem C6_witness :
    determineCompanies true none none = some [⟨"TCS", "", ""⟩] ∧
    (⟨"TCS", "", ""⟩ : Company).moneyControlUrl = "" ∧
    (processCompany envAllFail ["Q1"] [2026] ⟨"TCS", "", ""⟩).2 =
      [.screenerCall "TCS"] :=
  ⟨by decide,
   C6_fallbacks_unreachable.1 true none none [⟨"TCS", "", ""⟩] (by decide)
     ⟨"TCS", "", ""⟩ (by simp),
   (C6_fallbacks_unreachable.2 envAllFail ["Q1"] [2026] ⟨"TCS", "", ""⟩
      rfl (by decide)).2⟩

end FRB

namespace FRB

theorem runCompanies_fold_spec (env : AdapterEnv) (selQ : List String)
    (selFY : List ℤ) :
    ∀ (companies : List Company) (st : RunState),
      (companies.foldl (runStep env selQ selFY) st).allCompanyData =
        st.allCompanyData ++ companies.filterMap (fun c =>
          match (processCompany env selQ selFY c).1 with
          | .ok r => some r
          | .failed _ => none) ∧
      (companies.foldl (runStep env selQ selFY) st).errors =
        st.errors ++ companies.filterMap (fun c =>
          match (processCompany env selQ selFY c).1 with
          | .ok _ => none
          | .failed e => some { company := c.name, error := e, timestamp := 0 }) ∧
      (companies.foldl (runStep env selQ selFY) st).completedCompanies =
        st.completedCompanies ++ (companies.filter (fun c =>
          ((processCompany env selQ selFY c).1).isOk)).map Company.name ∧
      (companies.foldl (runStep env selQ selFY) st).failedCompanies =
        st.failedCompanies ++ (companies.filter (fun c =>
          !((processCompany env selQ selFY c).1).isOk)).map Company.name := by
  intro companies
  induction companies with
  | nil => intro st; simp
  | cons c rest ih =>
      intro st
      rcases ih (runStep env selQ selFY st c) with ⟨h1, h2, h3, h4⟩
      cases hc : (processCompany env selQ selFY c).1 with
      | ok r =>
          simp only [List.foldl_cons] at *
          refine ⟨h1.trans ?_, h2.trans ?_, h3.trans ?_, h4.trans ?_⟩ <;>
            simp [runStep, hc, CompanyOutcome.isOk]
      | failed e =>
          simp only [List.foldl_cons] at *
          refine ⟨h1.trans ?_, h2.trans ?_, h3.trans ?_, h4.trans ?_⟩ <;>
            simp [runStep, hc, CompanyOutcome.isOk]

/-- C7: one CompanyResult per completed company, exactly one error entry
per failed company (a company that exhausts all sources never aborts the
run), and the overall-success flag is true iff at least one company
completed. -/
theorem C7_total_failure_isolation (env : AdapterEnv) (selQ : List String)
    (selFY : List ℤ) (companies : List Company) :
    ((runCompanies env selQ selFY companies).allCompanyData =
      companies.filterMap (fun c =>
        match (processCompany env selQ selFY c).1 with
        | .ok r => some r
        | .failed _ => none)) ∧
    ((runCompanies env selQ selFY companies).errors =
      companies.filterMap (fun c =>
        match (processCompany env selQ selFY c).1 with
        | .ok _ => none
        | .failed e => some { company := c.name, error := e, timestamp := 0 })) ∧
    ((runCompanies env selQ selFY companies).completedCompanies =
      (companies.filter (fun c =>
        ((processCompany env selQ selFY c).1).isOk)).map Company.name) ∧
    (∀ (tm : Bool) (tc : Option String) (sel : Option (List String)) cs,
      determineCompanies tm tc sel = some cs →
      ((orchestrateFinancialDataScraping env selQ selFY tm tc sel).success = true ↔
        ∃ c ∈ cs, ((processCompany env selQ selFY c).1).isOk = true)) := by
  rcases runCompanies_fold_spec env selQ selFY companies {} with ⟨h1, h2, h3, h4⟩
  refine ⟨by simpa [runCompanies] using h1, by simpa [runCompanies] using h2,
          by simpa [runCompanies] using h3, ?_⟩
  intro tm tc sel cs hdet
  rcases runCompanies_fold_spec env selQ selFY cs {} with ⟨_, _, g3, _⟩
  have g : (runCompanies env selQ selFY cs).completedCompanies =
      (cs.filter (fun c => ((processCompany env selQ selFY c).1).isOk)).map
        Company.name := by
    simpa [runCompanies] using g3
  simp only [orchestrateFinancialDataScraping, hdet]
  simp [g, List.length_pos, List.map_eq_nil_iff, List.filter_eq_nil_iff]

theorem C7_witness :
    ((runCompanies envSecondFails ["Q2"] [2026] threeCompanies).allCompanyData.map
        CompanyResult.companyName = ["A", "C"]) ∧
    ((runCompanies envSecondFails ["Q2"] [2026] threeCompanies).errors =
      [{ company := "B", error := allStepsFailedMsg "Error: 401",
         timestamp := 0 }]) ∧
    ((runCompanies envSecondFails ["Q2"] [2026] threeCompanies).completedCompanies =
      ["A", "C"]) := by
  have h := C7_total_failure_isolation envSecondFails ["Q2"] [2026] threeCompanies
  refine ⟨?_, h.2.1.trans (by decide), h.2.2.1.trans (by decide)⟩
  rw [h.1]
  decide

end FRB

namespace FRB

/-- C9 counterexample: with an empty requested-quarters list and an
empty fiscal-years list (so no record can match both criterion lists),
a processed quarter whose period label does not match the canonical
pattern is still retained - the filter is not a pure membership test. -/
theorem C9_counterexample :
    (processQuarters [] [] [unknownQuarter]).map ProcessedQuarter.period =
      ["Unknown"] ∧
    findPeriodMatch "Unknown".toList = none := by
  decide

/-- C9 (amended): for a processed quarter whose period matches
`Q(\d)'(\d{2})`, retention is an exact membership test of the quarter
number and the fiscal year against the requested lists; a quarter whose
period does not match the pattern is always retained; the orchestrator
retains exactly the quarters passing this filter. -/
theorem C9_selection_filter (selQ : List String) (selFY : List ℤ)
    (q : ProcessedQuarter) :
    (∀ d y1 y2, findPeriodMatch q.period.toList = some (d, y1, y2) →
      (periodFilter selQ selFY q = true ↔
        ("Q" ++ String.mk [d]) ∈ selQ ∧
        ((2000 + ((10 * (y1.toNat - 48) + (y2.toNat - 48) : ℕ) : ℤ)) ∈ selFY))) ∧
    (findPeriodMatch q.period.toList = none → periodFilter selQ selFY q = true) ∧
    (∀ (data : List QuarterlyData) (pq : ProcessedQuarter),
      pq ∈ processQuarters selQ selFY data ↔
        pq ∈ data.map (fun r =>
          { quarter := r.quarter, period := r.period, rawData := r.indicators,
            calculatedMetrics := (calculateDerivedMetrics r.indicators).1 }) ∧
        periodFilter selQ selFY pq = true) := by
  refine ⟨?_, ?_, ?_⟩
  · intro d y1 y2 h
    unfold periodFilter
    rw [h]
    simp
  · intro h
    unfold periodFilter
    rw [h]
  · intro data pq
    unfold processQuarters
    simp [List.mem_filter]

theorem C9_witness :
    findPeriodMatch "Q2'26".toList =
      some (Char.ofNat 50, Char.ofNat 50, Char.ofNat 54) ∧
    (periodFilter ["Q2"] [2026]
        { quarter := "Q2'26", period := "Q2'26", rawData := [],
          calculatedMetrics := {} } = true) ∧
    (periodFilter ["Q2"] [2026]
        { quarter := "Unknown", period := "Unknown", rawData := [],
          calculatedMetrics := {} } = true) :=
  ⟨by decide,
   ((C9_selection_filter ["Q2"] [2026]
      { quarter := "Q2'26", period := "Q2'26", rawData := [],
        calculatedMetrics := {} }).1
      (Char.ofNat 50) (Char.ofNat 50) (Char.ofNat 54) (by decide)).mpr
     (by decide),
   (C9_selection_filter ["Q2"] [2026]
      { quarter := "Unknown", period := "Unknown", rawData := [],
        calculatedMetrics := {} }).2.1 (by decide)⟩

end FRB
